import Mathlib

/-!
Verification of the PilotR server (`src/server/main.py`): a shallow
embedding of the sandboxed file-and-process operation layer, with theorems
about the path guard, session gating, atomic state persistence, file
registration, renaming, the tabular preview and the style-check transform.

The filesystem, path resolution and child-process behaviour are modelled as
oracles (the `World` structure and the per-handler environment records):
each handler invocation reads the outcome of every external effect from the
oracle, while the control flow mirrors the Python source line by line.
Paths are modelled as lists of canonical components; strings of code and
file content are Lean `String`s operated on through executable char-list
helpers (core `String` primitives such as `splitOn` do not reduce in the
kernel).
-/

set_option linter.unusedVariables false

namespace PilotR

/-- Uniform success/error envelope every handler returns
(`{ok:true,data:{..}}` / `{ok:false,error:{code,..}}`); only the error code
of the error object is modelled. -/
inductive RResult (α : Type) where
  | ok (data : α) : RResult α
  | err (code : String) : RResult α
deriving DecidableEq

/-- The persisted state document (JSON object at `state_dir/state.json`).
Recognized keys `workdir`, `primary_file`, `files`, `updated_at`; a `none`
field models an absent key, and the default value `{}` models the empty
mapping returned by `load_state` on a missing or corrupt file. -/
structure StateDoc where
  workdir : Option (List String) := none
  primary_file : Option String := none
  files : Option (List String) := none
  updated_at : Option Nat := none
deriving DecidableEq

/-- The mutable fields of `PilotRServer`: `self.workdir`, `self.state_dir`,
`self.state_file` (all `None` at startup) and `self.primary_file`
(initialized to `"agent.R"`). -/
structure Session where
  workdir : Option (List String)
  state_dir : Option (List String)
  state_file : Option (List String)
  primary_file : String
deriving DecidableEq

/-- The session state right after `PilotRServer.__init__`. -/
def initSession : Session :=
  { workdir := none, state_dir := none, state_file := none, primary_file := "agent.R" }

/-! ### Executable string helpers (kernel-reducible models of the Python
string primitives used by the handlers) -/

/-- `pat` occurs as a contiguous substring of `s` (Python `pat in s`). -/
def subAux (pat : List Char) : List Char → Bool
  | [] => pat.isPrefixOf []
  | c :: t => pat.isPrefixOf (c :: t) || subAux pat t

/-- Python `pat in s` for strings. -/
def hasSub (s pat : String) : Bool := subAux pat.data s.data

/-- Python `s.endswith(pat)`. -/
def strEndsWith (s pat : String) : Bool := pat.data.reverse.isPrefixOf s.data.reverse

/-- Python `s.startswith(pat)`. -/
def strStartsWith (s pat : String) : Bool := pat.data.isPrefixOf s.data

/-- Python `s.lower()`. -/
def strToLower (s : String) : String := ⟨s.data.map Char.toLower⟩

/-- Python `s.replace(pat, rep)`: replace all non-overlapping occurrences
of a non-empty `pat`, scanning left to right. -/
def replaceAux (pat rep : List Char) : List Char → List Char
  | [] => []
  | c :: t =>
    if pat ≠ [] ∧ pat.isPrefixOf (c :: t) = true then
      rep ++ replaceAux pat rep (t.drop (pat.length - 1))
    else
      c :: replaceAux pat rep t
termination_by l => l.length
decreasing_by
  all_goals simp only [List.length_cons, List.length_drop]
  all_goals omega

/-- Python `s.replace(pat, rep)` on `String`. -/
def strReplace (s pat rep : String) : String := ⟨replaceAux pat.data rep.data s.data⟩

/-- Split a char list on a separator character (used for Python
`Path.with_suffix` and `str.splitlines`). -/
def splitOnChar (sep : Char) : List Char → List (List Char)
  | [] => [[]]
  | c :: t =>
    let r := splitOnChar sep t
    if c = sep then [] :: r
    else
      match r with
      | [] => [[c]]
      | h :: rest => (c :: h) :: rest

/-- Number of lines of `s` as counted by Python `str.splitlines()`
(newline-only model): a trailing newline does not open a new line. -/
def splitlinesCount (s : String) : Nat :=
  if s.data = [] then 0
  else
    let parts := splitOnChar '\n' s.data
    if strEndsWith s "\n" then parts.length - 1 else parts.length

/-- Python `Path(name).with_suffix('.tmp')` on a single filename: drop the
last extension (a leading dot alone marks a hidden file, not a suffix) and
append `.tmp`. -/
def withSuffixTmp (name : String) : String :=
  match splitOnChar '.' name.data with
  | [] => name ++ ".tmp"
  | [_] => name ++ ".tmp"
  | first :: rest =>
    if first = [] ∧ rest.length = 1 then name ++ ".tmp"
    else ⟨List.intercalate ['.'] ((first :: rest).dropLast)⟩ ++ ".tmp"

/-- The temporary sibling `state_file.with_suffix('.tmp')` of a path. -/
def tmpPath (p : List String) : List String :=
  match p.getLast? with
  | none => p
  | some n => p.dropLast ++ [withSuffixTmp n]

/-! ### State store: `load_state` / `save_state` -/

/-- A fragment of the on-disk filesystem: which paths hold which state
document. -/
def FS : Type := List String → Option StateDoc

/-- Where the execution of `save_state` stops: it runs to completion, the
process crashes after the temporary file is fully written but before the
rename, the temporary-file write raises, or the rename raises (both
exception paths are caught and unlink the temporary file). -/
inductive SaveEvent where
  | complete
  | crashBeforeRename
  | writeRaises
  | renameRaises
deriving DecidableEq

/-- Write a document at a path. -/
def fsSet (fs : FS) (p : List String) (d : StateDoc) : FS :=
  fun q => if q = p then some d else fs q

/-- Remove the file at a path. -/
def fsRemove (fs : FS) (p : List String) : FS :=
  fun q => if q = p then none else fs q

/-- `save_state` (main.py:130-142): no-op when no state file is configured;
otherwise write the document to the `.tmp` sibling and rename it over the
target (`temp_file.replace(self.state_file)`); on an exception the
temporary file is unlinked and the target is never touched. -/
def save_state (state_file : Option (List String)) (doc : StateDoc) (ev : SaveEvent)
    (fs : FS) : FS :=
  match state_file with
  | none => fs
  | some f =>
    let temp := tmpPath f
    match ev with
    | .complete => fsRemove (fsSet (fsSet fs temp doc) f doc) temp
    | .crashBeforeRename => fsSet fs temp doc
    | .writeRaises => fsRemove fs temp
    | .renameRaises => fsRemove (fsSet fs temp doc) temp

/-- **C6**: `save_state` is atomic: for every prior on-disk state, a crash
after the temporary sibling file is written but before the rename, an
exception while writing the temporary file, or an exception during the
rename leaves the content previously stored at the target path unchanged
(and a completed save installs exactly the new document). -/
theorem save_state_atomic (fs : FS) (f : List String) (doc : StateDoc) (ev : SaveEvent)
    (htmp : tmpPath f ≠ f) (hev : ev ≠ SaveEvent.complete) :
    save_state (some f) doc ev fs f = fs f := by
  have h : f ≠ tmpPath f := Ne.symm htmp
  cases ev <;> simp_all [save_state, fsSet, fsRemove]

/-- The state-file path used by the server (`<root>/.pilotr/state.json`). -/
def stateJsonPath : List String := ["w", ".pilotr", "state.json"]

/-- Witness for **C6**: at the concrete state-file path the temporary
sibling differs from the target, and a crash before the rename leaves the
(empty) prior filesystem untouched at the target. -/
theorem save_state_atomic_witness :
    tmpPath stateJsonPath ≠ stateJsonPath ∧
      SaveEvent.crashBeforeRename ≠ SaveEvent.complete ∧
      save_state (some stateJsonPath) {} SaveEvent.crashBeforeRename (fun _ => none)
        stateJsonPath = none :=
  ⟨by decide, by decide,
    save_state_atomic (fun _ => none) stateJsonPath {} SaveEvent.crashBeforeRename
      (by decide) (by decide)⟩

/-! ### Path guard -/

/-- `is_safe_path` (main.py:152-161): fail when no working directory is
configured; resolve the candidate (`res` is the `Path.resolve` oracle,
`none` models a resolution exception, caught and turned into `False`);
succeed iff the canonical form is the workdir or nested beneath it
(`resolved.is_relative_to(self.workdir)` on canonical component lists). -/
def is_safe_path (res : List String → Option (List String)) (workdir : Option (List String))
    (p : List String) : Bool :=
  match workdir with
  | none => false
  | some wd =>
    match res p with
    | none => false
    | some resolved => wd.isPrefixOf resolved

/-- **C4**: the path guard succeeds iff a root is configured, the candidate
resolves, and its canonical form equals the root or is nested beneath it;
any resolution failure, a canonical form outside the root, or an
unconfigured root makes the guard fail. -/
theorem is_safe_path_iff (res : List String → Option (List String))
    (workdir : Option (List String)) (p : List String) :
    is_safe_path res workdir p = true ↔
      ∃ r c, workdir = some r ∧ res p = some c ∧ (c = r ∨ r <+: c) := by
  cases workdir with
  | none => simp [is_safe_path]
  | some wd =>
    cases hres : res p with
    | none => simp [is_safe_path, hres]
    | some c =>
      simp only [is_safe_path, hres, List.isPrefixOf_iff_prefix, Option.some.injEq]
      constructor
      · intro h
        exact ⟨wd, c, rfl, rfl, Or.inr h⟩
      · rintro ⟨r, c', hr, hc, hrc⟩
        cases hr
        cases hc
        rcases hrc with rfl | h
        · exact List.prefix_refl _
        · exact h

/-! ### Interpreter runner -/

/-- Outcome of the child-process launch inside `run_r_command`'s `try`
block: `os.chdir(self.workdir)` raises; `subprocess.run` completes with an
exit code and raw output lines; it raises `TimeoutExpired`; or it raises
some other launch exception. -/
inductive RunOutcome where
  | chdirRaises
  | completed (returncode : Int) (stdoutLines stderrLines : List String)
  | timedOut
  | launchRaises
deriving DecidableEq

/-- Metadata of one directory entry as observed by `workdir.glob(...)`. -/
structure FileEntry where
  name : String
  size : Nat
  mtime : Nat
  extension : String
  isFile : Bool
deriving DecidableEq

/-- Oracle for every external effect a single handler invocation performs:
path resolution, filesystem probes, the parsed state document on disk, the
clock, the `shutil.which` lookups, the process-wide current working
directory, the child-process outcome, directory listings, file content and
the failure switches of the individual I/O calls. -/
structure World where
  resolve : List String → Option (List String)
  fsExists : List String → Bool
  isFile : List String → Bool
  loaded : StateDoc
  now : Nat
  rscriptPath : Option String
  rPath : Option String
  cwd0 : List String
  outcome : RunOutcome
  globFiles : String → List FileEntry
  fileSize : List String → Nat
  readText : List String → String
  readRaises : Bool
  decodeFails : Bool
  writeRaises : Bool
  renameRaises : Bool
  bytesB64 : String
  parsed : String → Option (List (List String))
  sniffed : Option String

/-- `load_state` (main.py:119-128): empty mapping when no state file is set
or the file does not exist; otherwise whatever the JSON parse yields (a
parse failure already degraded to `{}` inside the oracle). -/
def load_state (w : World) (s : Session) : StateDoc :=
  match s.state_file with
  | none => {}
  | some f => if w.fsExists f then w.loaded else {}

/-- `find_r_executable` (main.py:163-171): `shutil.which("Rscript")`,
falling back to `shutil.which("R")`. -/
def find_r_executable (w : World) : Option String :=
  match w.rscriptPath with
  | some rscript => some rscript
  | none => w.rPath

/-- Payload of a successful interpreter invocation: filtered stdout/stderr
lines and the exit code. -/
structure RunData where
  stdout : List String
  stderr : List String
  returncode : Int
deriving DecidableEq

/-- `run_r_command` (main.py:173-251). Returns the envelope together with
the process-wide current working directory after the call. The body
`os.chdir(self.workdir)`s, runs the child, then `os.chdir(original_cwd)`s —
but the restore is only reached when `subprocess.run` returns: the
`TimeoutExpired` and generic exception handlers skip it, leaving the
process inside the session root. -/
def run_r_command (w : World) (s : Session) (args : List String) (timeout : Nat) :
    RResult RunData × List String :=
  match find_r_executable w with
  | none => (.err "R_NOT_FOUND", w.cwd0)
  | some _ =>
    match w.outcome with
    | .chdirRaises => (.err "EXECUTION_ERROR", w.cwd0)
    | .completed returncode out errOut =>
      let stdout_lines :=
        out.filter (fun line => !(line == "") && !(strStartsWith line "Loading required package:"))
      let stderr_lines :=
        errOut.filter (fun line => !(line == "") && !(hasSub line "no visible binding"))
      if returncode ≠ 0 then (.err "R_EXECUTION_ERROR", w.cwd0)
      else (.ok ⟨stdout_lines, stderr_lines, returncode⟩, w.cwd0)
    | .timedOut =>
      (.err "TIMEOUT", match s.workdir with | some wd => wd | none => w.cwd0)
    | .launchRaises =>
      (.err "EXECUTION_ERROR", match s.workdir with | some wd => wd | none => w.cwd0)

/-- A neutral oracle world used to build concrete test inputs. -/
def baseWorld : World where
  resolve := fun _ => none
  fsExists := fun _ => false
  isFile := fun _ => false
  loaded := {}
  now := 0
  rscriptPath := none
  rPath := none
  cwd0 := []
  outcome := .launchRaises
  globFiles := fun _ => []
  fileSize := fun _ => 0
  readText := fun _ => ""
  readRaises := false
  decodeFails := false
  writeRaises := false
  renameRaises := false
  bytesB64 := ""
  parsed := fun _ => none
  sniffed := none

/-- World of an invocation whose child times out: interpreter found, the
process started in `/home/orig`, the session root is `/tmp/w`. -/
def timeoutWorld : World :=
  { baseWorld with
    rscriptPath := some "/usr/bin/Rscript"
    cwd0 := ["home", "orig"]
    outcome := .timedOut }

/-- Session rooted at `/tmp/w`. -/
def timeoutSession : Session :=
  { workdir := some ["tmp", "w"], state_dir := some ["tmp", "w", ".pilotr"],
    state_file := some ["tmp", "w", ".pilotr", "state.json"], primary_file := "agent.R" }

/-- **C1** (the code violates the claim): when the child times out,
`run_r_command` returns `TIMEOUT` but leaves the process-wide current
working directory at the session root instead of restoring the directory
that was current before the call — the `os.chdir(original_cwd)` restore is
skipped by the `TimeoutExpired` handler. -/
theorem run_r_command_timeout_leaves_workdir :
    (run_r_command timeoutWorld timeoutSession ["-e", "Sys.sleep(999)"] 1).1 = .err "TIMEOUT" ∧
    (run_r_command timeoutWorld timeoutSession ["-e", "Sys.sleep(999)"] 1).2 = ["tmp", "w"] ∧
    timeoutWorld.cwd0 = ["home", "orig"] ∧
    (["tmp", "w"] : List String) ≠ ["home", "orig"] :=
  ⟨rfl, rfl, rfl, by decide⟩

/-! ### Directory session: `handle_set_workdir` -/

/-- Oracle of one `handle_set_workdir` invocation:
`Path(path).expanduser().resolve()` (`none` = raises), `workdir.exists()`,
`workdir.is_dir()`, whether `workdir.mkdir(parents=True)` raises, whether
`self.state_dir.mkdir(exist_ok=True)` raises, the parsed prior state
document and the clock. -/
structure SetWorkdirEnv where
  resolved : Option (List String)
  exists0 : Bool
  isDir : Bool
  mkdirRaises : Bool
  stateMkdirRaises : Bool
  loaded : StateDoc
  now : Nat
deriving DecidableEq

/-- Success payload of `set_workdir`. -/
structure SetWorkdirData where
  workdir : List String
  state_dir : List String
  primary_file : String
deriving DecidableEq

/-- `handle_set_workdir` (main.py:253-311). Returns the envelope, the
session after the call, and the document passed to `save_state` (when
reached). Field assignments happen in source order: `self.workdir` and
`self.state_dir` are assigned before `state_dir.mkdir()` can raise, while
`self.state_file` is assigned after it, and `self.primary_file` is never
touched. -/
def handle_set_workdir (env : SetWorkdirEnv) (create : Bool) (s : Session) :
    RResult SetWorkdirData × Session × Option StateDoc :=
  match env.resolved with
  | none => (.err "SET_DIR_ERROR", s, none)
  | some wd =>
    if ¬ env.exists0 ∧ ¬ create then (.err "DIR_NOT_FOUND", s, none)
    else if ¬ env.exists0 ∧ env.mkdirRaises then (.err "SET_DIR_ERROR", s, none)
    else if env.exists0 ∧ ¬ env.isDir then (.err "NOT_A_DIR", s, none)
    else
      let s1 : Session := { s with workdir := some wd, state_dir := some (wd ++ [".pilotr"]) }
      if env.stateMkdirRaises then (.err "SET_DIR_ERROR", s1, none)
      else
        let s2 : Session := { s1 with state_file := some (wd ++ [".pilotr", "state.json"]) }
        let doc : StateDoc :=
          { env.loaded with
            workdir := some wd
            primary_file := some s.primary_file
            updated_at := some env.now }
        (.ok ⟨wd, wd ++ [".pilotr"], s.primary_file⟩, s2, some doc)

/-- A session left behind by an earlier `set_workdir` on `/old`. -/
def priorSession : Session :=
  { workdir := some ["old"], state_dir := some ["old", ".pilotr"],
    state_file := some ["old", ".pilotr", "state.json"], primary_file := "agent.R" }

/-- Environment in which `/new` exists and is a directory but creating its
`.pilotr` state subdirectory raises. -/
def stateMkdirFailEnv : SetWorkdirEnv :=
  { resolved := some ["new"], exists0 := true, isDir := true, mkdirRaises := false,
    stateMkdirRaises := true, loaded := {}, now := 0 }

/-- **C2** counterexample: when creating the reserved state subdirectory
fails, `set_workdir` returns an error yet has already replaced the
session's root and state directory, while the state-file location still
points into the prior session — the prior session is not left untouched. -/
theorem set_workdir_not_atomic :
    (handle_set_workdir stateMkdirFailEnv true priorSession).1 = .err "SET_DIR_ERROR" ∧
    (handle_set_workdir stateMkdirFailEnv true priorSession).2.1.workdir = some ["new"] ∧
    (handle_set_workdir stateMkdirFailEnv true priorSession).2.1.state_file =
      some ["old", ".pilotr", "state.json"] ∧
    priorSession.workdir = some ["old"] := by
  refine ⟨by decide, by decide, by decide, by decide⟩

/-- **C2** amended: on success `workdir`, `state_dir` and `state_file` are
all replaced together (against the new resolved root); on failure the prior
session is left untouched *except* in one case: when creating the reserved
state subdirectory raises after the root was assigned, the error return
leaves `workdir` and `state_dir` updated and `state_file` unchanged. -/
theorem set_workdir_atomicity_amended (env : SetWorkdirEnv) (create : Bool) (s : Session) :
    match handle_set_workdir env create s with
    | (.ok _, s', _) =>
        ∃ wd, env.resolved = some wd ∧
          s'.workdir = some wd ∧ s'.state_dir = some (wd ++ [".pilotr"]) ∧
          s'.state_file = some (wd ++ [".pilotr", "state.json"])
    | (.err _, s', saved) =>
        saved = none ∧
          (s' = s ∨
            ∃ wd, env.resolved = some wd ∧ env.stateMkdirRaises = true ∧
              s' = { s with workdir := some wd, state_dir := some (wd ++ [".pilotr"]) }) := by
  unfold handle_set_workdir
  cases hres : env.resolved with
  | none => simp
  | some wd =>
    cases hE : env.exists0 <;> cases hC : create <;> cases hM : env.mkdirRaises <;>
      cases hS : env.stateMkdirRaises <;> cases hD : env.isDir <;>
        simp [hE, hC, hM, hS, hD, hres]

/-- A session whose primary file was changed away from the default by an
earlier `set_primary_file`. -/
def otherPrimarySession : Session :=
  { workdir := some ["old"], state_dir := some ["old", ".pilotr"],
    state_file := some ["old", ".pilotr", "state.json"], primary_file := "other.R" }

/-- Environment of a successful `set_workdir` of the directory `/new5`. -/
def okSetWorkdirEnv : SetWorkdirEnv :=
  { resolved := some ["new5"], exists0 := true, isDir := true, mkdirRaises := false,
    stateMkdirRaises := false, loaded := {}, now := 17 }

/-- **C5** counterexample: a successful `set_workdir` does *not* reset the
session's primary file to the default `agent.R`; the persisted document
records the carried-over primary file instead. -/
theorem set_workdir_does_not_reset_primary :
    (∃ d, (handle_set_workdir okSetWorkdirEnv true otherPrimarySession).1 = RResult.ok d) ∧
    (handle_set_workdir okSetWorkdirEnv true otherPrimarySession).2.1.primary_file = "other.R" ∧
    (handle_set_workdir okSetWorkdirEnv true otherPrimarySession).2.2 =
      some { workdir := some ["new5"], primary_file := some "other.R", files := none,
             updated_at := some 17 } ∧
    otherPrimarySession.primary_file = "other.R" ∧
    ("other.R" : String) ≠ "agent.R" := by
  refine ⟨⟨⟨["new5"], ["new5", ".pilotr"], "other.R"⟩, by decide⟩, by decide, by decide,
    by decide, by decide⟩

/-- **C5** amended: when `set_workdir` succeeds, the session's primary file
is left unchanged (it is `agent.R` only if nothing changed it since
startup), and the persisted document records the new root, that *current*
primary file and the fresh timestamp. -/
theorem set_workdir_keeps_primary (env : SetWorkdirEnv) (create : Bool) (s : Session) :
    match handle_set_workdir env create s with
    | (.ok d, s', saved) =>
        s'.primary_file = s.primary_file ∧ d.primary_file = s.primary_file ∧
          ∃ wd, env.resolved = some wd ∧
            saved = some { env.loaded with
              workdir := some wd
              primary_file := some s.primary_file
              updated_at := some env.now }
    | (.err _, _, _) => True := by
  unfold handle_set_workdir
  cases hres : env.resolved with
  | none => simp
  | some wd =>
    cases hE : env.exists0 <;> cases hC : create <;> cases hM : env.mkdirRaises <;>
      cases hS : env.stateMkdirRaises <;> cases hD : env.isDir <;>
        simp [hE, hC, hM, hS, hD, hres]

/-! ### Session gate and filename normalization -/

/-- `ensure_workdir_set` (main.py:144-150): `none` = ok; otherwise the
error code (`NO_WORKDIR` when no working directory is set, or
`WORKDIR_MISSING` when the set directory no longer exists — re-probed on
every call). -/
def ensure_workdir_set (w : World) (s : Session) : Option String :=
  match s.workdir with
  | none => some "NO_WORKDIR"
  | some wd => if w.fsExists wd then none else some "WORKDIR_MISSING"

/-- `filename.endswith(('.R', '.r'))` guarded extension append used by
every script-file handler. -/
def normalizeExt (filename : String) : String :=
  if strEndsWith filename ".R" || strEndsWith filename ".r" then filename
  else filename ++ ".R"

/-- Python `if not filename: filename = self.primary_file`: `None` and the
empty string both fall back to the primary file. -/
def defaultFilename (filename? : Option String) (primary : String) : String :=
  match filename? with
  | none => primary
  | some f => if f = "" then primary else f

/-- The minimal R scaffold template (`R_SCAFFOLD`, a lone newline). -/
def R_SCAFFOLD : String := "\n"

/-! ### File operations -/

/-- Success payload of `create_R_file`. -/
structure CreateData where
  filename : String
  filepath : List String
  scaffold_used : Bool
deriving DecidableEq

/-- The state-update block shared verbatim by `handle_create_R_file`
(main.py:366-372) and `handle_write_R_code` (main.py:638-644): ensure the
`files` key exists, append the filename unless already registered,
timestamp the update. -/
def registerFileState (doc : StateDoc) (filename : String) (now : Nat) : StateDoc :=
  let files := doc.files.getD []
  let files := if filename ∈ files then files else files ++ [filename]
  { doc with files := some files, updated_at := some now }

/-- `handle_create_R_file` (main.py:329-390). Returns the envelope and the
document passed to `save_state` (when reached); the `filepath.write_text`
call is modelled by the `writeRaises` oracle. -/
def handle_create_R_file (w : World) (s : Session) (filename : String)
    (overwrite : Bool) (scaffold : Bool) : RResult CreateData × Option StateDoc :=
  match ensure_workdir_set w s with
  | some e => (.err e, none)
  | none =>
    let wd := s.workdir.getD []
    let filename := normalizeExt filename
    let filepath := wd ++ [filename]
    if ¬ is_safe_path w.resolve s.workdir filepath then (.err "UNSAFE_PATH", none)
    else if w.fsExists filepath ∧ ¬ overwrite then (.err "FILE_EXISTS", none)
    else if w.writeRaises then (.err "CREATE_ERROR", none)
    else
      let doc := registerFileState (load_state w s) filename w.now
      (.ok ⟨filename, filepath, scaffold⟩, some doc)

/-- Success payload of `rename_R_file`. -/
structure RenameData where
  old_name : String
  new_name : String
deriving DecidableEq

/-- The state update performed by `handle_rename_R_file` (main.py:441-449):
swap list membership only when `files` is present and contains the old
name; re-point the document's `primary_file` only when the *persisted*
primary equals the old name; timestamp. -/
def renameStateDoc (doc : StateDoc) (old_name new_name : String) (now : Nat) : StateDoc :=
  let doc :=
    match doc.files with
    | some fl =>
      if old_name ∈ fl then { doc with files := some (fl.erase old_name ++ [new_name]) }
      else doc
    | none => doc
  let doc :=
    if doc.primary_file = some old_name then { doc with primary_file := some new_name }
    else doc
  { doc with updated_at := some now }

/-- `handle_rename_R_file` (main.py:392-467). Returns the envelope, the
session after the call (`self.primary_file` is re-pointed only when the
persisted document's primary equals the old name), and the saved
document. The `unlink`/`rename` filesystem calls are modelled by the
`renameRaises` oracle. -/
def handle_rename_R_file (w : World) (s : Session) (old_name new_name : String)
    (overwrite : Bool) : RResult RenameData × Session × Option StateDoc :=
  match ensure_workdir_set w s with
  | some e => (.err e, s, none)
  | none =>
    let wd := s.workdir.getD []
    let old_name := normalizeExt old_name
    let new_name := normalizeExt new_name
    let old_path := wd ++ [old_name]
    let new_path := wd ++ [new_name]
    if ¬ is_safe_path w.resolve s.workdir old_path ∨
        ¬ is_safe_path w.resolve s.workdir new_path then
      (.err "UNSAFE_PATH", s, none)
    else if ¬ w.fsExists old_path then (.err "FILE_NOT_FOUND", s, none)
    else if w.fsExists new_path ∧ ¬ overwrite then (.err "FILE_EXISTS", s, none)
    else if w.renameRaises then (.err "RENAME_ERROR", s, none)
    else
      let doc := load_state w s
      let doc' := renameStateDoc doc old_name new_name w.now
      let s' :=
        if doc.primary_file = some old_name then { s with primary_file := new_name } else s
      (.ok ⟨old_name, new_name⟩, s', some doc')

/-- Success payload of `set_primary_file`. -/
structure PrimaryData where
  primary_file : String
deriving DecidableEq

/-- `handle_set_primary_file` (main.py:469-516). -/
def handle_set_primary_file (w : World) (s : Session) (filename : String) :
    RResult PrimaryData × Session × Option StateDoc :=
  match ensure_workdir_set w s with
  | some e => (.err e, s, none)
  | none =>
    let wd := s.workdir.getD []
    let filename := normalizeExt filename
    let filepath := wd ++ [filename]
    if ¬ is_safe_path w.resolve s.workdir filepath then (.err "UNSAFE_PATH", s, none)
    else if ¬ w.fsExists filepath then (.err "FILE_NOT_FOUND", s, none)
    else
      let s' := { s with primary_file := filename }
      let doc := { load_state w s with primary_file := some filename, updated_at := some w.now }
      (.ok ⟨filename⟩, s', some doc)

/-- Success payload of `append_R_code`. -/
structure AppendData where
  filename : String
  lines_appended : Nat
  total_lines : Nat
deriving DecidableEq

/-- `handle_append_R_code` (main.py:518-586): read the existing content,
ensure a separating newline, append (with an optional trailing newline on
the appended code), write back. Appending performs no state save. -/
def handle_append_R_code (w : World) (s : Session) (code : String)
    (filename? : Option String) (ensure_trailing_newline : Bool) : RResult AppendData :=
  match ensure_workdir_set w s with
  | some e => .err e
  | none =>
    let wd := s.workdir.getD []
    let filename := defaultFilename filename? s.primary_file
    let filename := normalizeExt filename
    let filepath := wd ++ [filename]
    if ¬ is_safe_path w.resolve s.workdir filepath then .err "UNSAFE_PATH"
    else if ¬ w.fsExists filepath then .err "FILE_NOT_FOUND"
    else if w.readRaises ∨ w.decodeFails then .err "APPEND_ERROR"
    else
      let existing_content := w.readText filepath
      let code_to_append :=
        if ensure_trailing_newline ∧ ¬ strEndsWith code "\n" then code ++ "\n" else code
      let existing_content :=
        if existing_content ≠ "" ∧ ¬ strEndsWith existing_content "\n" then
          existing_content ++ "\n"
        else existing_content
      let new_content := existing_content ++ code_to_append
      if w.writeRaises then .err "APPEND_ERROR"
      else .ok ⟨filename, splitlinesCount code, splitlinesCount new_content⟩

/-- Success payload of `write_R_code`. -/
structure WriteData where
  filename : String
  lines_written : Nat
  scaffold_used : Bool
deriving DecidableEq

/-- `handle_write_R_code` (main.py:588-662): optionally prefix the scaffold
header (the scaffold constant is non-empty, a lone newline), ensure a
trailing newline, write, register the filename in the state document. -/
def handle_write_R_code (w : World) (s : Session) (code : String)
    (filename? : Option String) (overwrite : Bool) (use_scaffold_header : Bool) :
    RResult WriteData × Option StateDoc :=
  match ensure_workdir_set w s with
  | some e => (.err e, none)
  | none =>
    let wd := s.workdir.getD []
    let filename := defaultFilename filename? s.primary_file
    let filename := normalizeExt filename
    let filepath := wd ++ [filename]
    if ¬ is_safe_path w.resolve s.workdir filepath then (.err "UNSAFE_PATH", none)
    else if w.fsExists filepath ∧ ¬ overwrite then (.err "FILE_EXISTS", none)
    else
      let content := if use_scaffold_header ∧ R_SCAFFOLD ≠ "" then R_SCAFFOLD ++ code else code
      let content :=
        if content ≠ "" ∧ ¬ strEndsWith content "\n" then content ++ "\n" else content
      if w.writeRaises then (.err "WRITE_ERROR", none)
      else
        let doc := registerFileState (load_state w s) filename w.now
        (.ok ⟨filename, splitlinesCount content, use_scaffold_header⟩, some doc)

/-- **C9**: file registration is idempotent. Both `create_R_file` and
`write_R_code` persist exactly `registerFileState` applied to the loaded
document and the normalized filename, and applying the registration twice
for the same filename leaves the tracked list containing that name exactly
once — an already-registered name is never duplicated. -/
theorem register_file_idempotent (doc : StateDoc) (filename : String) (n1 n2 : Nat)
    (w1 w2 : World) (s1 s2 : Session) (fn code : String) (fn? : Option String)
    (ov1 sc ov2 ush : Bool)
    (h : (doc.files.getD []).count filename ≤ 1) :
    ((registerFileState (registerFileState doc filename n1) filename n2).files.getD
        []).count filename = 1 ∧
    (∀ d saved, handle_create_R_file w1 s1 fn ov1 sc = (.ok d, saved) →
        saved = some (registerFileState (load_state w1 s1) (normalizeExt fn) w1.now)) ∧
    (∀ d saved, handle_write_R_code w2 s2 code fn? ov2 ush = (.ok d, saved) →
        saved = some (registerFileState (load_state w2 s2)
          (normalizeExt (defaultFilename fn? s2.primary_file)) w2.now)) := by
  refine ⟨?_, ?_, ?_⟩
  · by_cases hmem : filename ∈ doc.files.getD []
    · have h1 : 0 < (doc.files.getD []).count filename := List.count_pos_iff.mpr hmem
      simp [registerFileState, hmem]
      omega
    · have h0 : (doc.files.getD []).count filename = 0 := List.count_eq_zero.mpr hmem
      simp [registerFileState, hmem, h0]
  · intro d saved hh
    unfold handle_create_R_file at hh
    cases hg : ensure_workdir_set w1 s1 <;> rw [hg] at hh
    · by_cases hc1 : ¬ is_safe_path w1.resolve s1.workdir
          (s1.workdir.getD [] ++ [normalizeExt fn])
      · rw [if_pos hc1] at hh; simp at hh
      · rw [if_neg hc1] at hh
        by_cases hc2 : w1.fsExists (s1.workdir.getD [] ++ [normalizeExt fn]) ∧ ¬ ov1
        · rw [if_pos hc2] at hh; simp at hh
        · rw [if_neg hc2] at hh
          by_cases hc3 : w1.writeRaises
          · rw [if_pos hc3] at hh; simp at hh
          · rw [if_neg hc3] at hh
            simp only [Prod.mk.injEq] at hh
            exact hh.2.symm
    · simp at hh
  · intro d saved hh
    unfold handle_write_R_code at hh
    cases hg : ensure_workdir_set w2 s2 <;> rw [hg] at hh
    · by_cases hc1 : ¬ is_safe_path w2.resolve s2.workdir
          (s2.workdir.getD [] ++ [normalizeExt (defaultFilename fn? s2.primary_file)])
      · rw [if_pos hc1] at hh; simp at hh
      · rw [if_neg hc1] at hh
        by_cases hc2 : w2.fsExists
            (s2.workdir.getD [] ++ [normalizeExt (defaultFilename fn? s2.primary_file)]) ∧ ¬ ov2
        · rw [if_pos hc2] at hh; simp at hh
        · rw [if_neg hc2] at hh
          by_cases hc3 : w2.writeRaises
          · rw [if_pos hc3] at hh; simp at hh
          · rw [if_neg hc3] at hh
            simp only [Prod.mk.injEq] at hh
            exact hh.2.symm
    · simp at hh

/-- Witness for **C9**: registering `a.R` twice starting from the empty
document leaves it tracked exactly once. -/
theorem register_file_idempotent_witness :
    (({} : StateDoc).files.getD []).count "a.R" ≤ 1 ∧
      ((registerFileState (registerFileState ({} : StateDoc) "a.R" 1) "a.R" 2).files.getD
          []).count "a.R" = 1 :=
  ⟨by decide,
    (register_file_idempotent {} "a.R" 1 2 baseWorld baseWorld initSession initSession
        "a" "x" none false true false true (by decide)).1⟩

/-- World of a rename in the session root `/w`: `a.R` exists on disk,
`b.R` does not, and the persisted state document is empty. -/
def renameWorld : World :=
  { baseWorld with
    resolve := fun p => some p
    fsExists := fun p => decide (p = ["w"]) || decide (p = ["w", "a.R"]) }

/-- Session whose current primary file is `a.R` but whose state file was
never written (so the persisted document is empty). -/
def renameSession : Session :=
  { workdir := some ["w"], state_dir := some ["w", ".pilotr"], state_file := none,
    primary_file := "a.R" }

/-- **C7** counterexample: renaming `a.R` (the session's current primary
file) to `b.R` succeeds, yet the session's primary pointer is *not*
re-pointed to `b.R` — the handler consults the persisted document's
`primary_file`, which is absent here — and the saved document's tracked
file list does not gain `b.R` because `a.R` was never in it. -/
theorem rename_counterexample :
    (∃ d, (handle_rename_R_file renameWorld renameSession "a" "b" false).1 = RResult.ok d) ∧
    renameSession.primary_file = "a.R" ∧
    (handle_rename_R_file renameWorld renameSession "a" "b" false).2.1.primary_file = "a.R" ∧
    (handle_rename_R_file renameWorld renameSession "a" "b" false).2.2 =
      some { files := none, updated_at := some 0 } ∧
    ("a.R" : String) ≠ "b.R" := by
  refine ⟨⟨⟨"a.R", "b.R"⟩, by decide⟩, by decide, by decide, by decide, by decide⟩

/-- When the document's file list is present and contains the old name,
`renameStateDoc` removes it and appends the new name. -/
lemma renameStateDoc_files_tracked (doc : StateDoc) (old_name new_name : String) (now : Nat)
    (fl : List String) (hfl : doc.files = some fl) (hmem : old_name ∈ fl) :
    (renameStateDoc doc old_name new_name now).files =
      some (fl.erase old_name ++ [new_name]) := by
  simp only [renameStateDoc, hfl, if_pos hmem]
  split <;> rfl

/-- When the document has no file list, `renameStateDoc` leaves it absent. -/
lemma renameStateDoc_files_untracked (doc : StateDoc) (old_name new_name : String) (now : Nat)
    (hfl : doc.files = none) :
    (renameStateDoc doc old_name new_name now).files = none := by
  simp only [renameStateDoc, hfl]
  split <;> simp [hfl]

/-- **C7** amended: when rename succeeds, the session's primary pointer is
re-pointed to the new name exactly when the *persisted* document's
`primary_file` equals the (normalized) old name — not when the session's
in-memory primary does; and the tracked file list has the old name removed
and the new name appended exactly when the list is present and contains the
old name, and is left unchanged otherwise. On failure neither the session
nor the document changes. -/
theorem rename_updates_amended (w : World) (s : Session) (old_name new_name : String)
    (overwrite : Bool) :
    match handle_rename_R_file w s old_name new_name overwrite with
    | (.ok _, s', saved) =>
        s'.primary_file =
          (if (load_state w s).primary_file = some (normalizeExt old_name) then
            normalizeExt new_name
          else s.primary_file) ∧
        saved = some (renameStateDoc (load_state w s) (normalizeExt old_name)
          (normalizeExt new_name) w.now) ∧
        (∀ fl, (load_state w s).files = some fl → normalizeExt old_name ∈ fl →
          (renameStateDoc (load_state w s) (normalizeExt old_name) (normalizeExt new_name)
              w.now).files =
            some (fl.erase (normalizeExt old_name) ++ [normalizeExt new_name])) ∧
        ((load_state w s).files = none →
          (renameStateDoc (load_state w s) (normalizeExt old_name) (normalizeExt new_name)
              w.now).files = none)
    | (.err _, s', saved) => s' = s ∧ saved = none := by
  unfold handle_rename_R_file
  cases hg : ensure_workdir_set w s with
  | some e => simp
  | none =>
    by_cases hc1 : ¬ is_safe_path w.resolve s.workdir
          (s.workdir.getD [] ++ [normalizeExt old_name]) ∨
        ¬ is_safe_path w.resolve s.workdir (s.workdir.getD [] ++ [normalizeExt new_name])
    · rw [if_pos hc1]; exact ⟨rfl, rfl⟩
    · rw [if_neg hc1]
      by_cases hc2 : ¬ w.fsExists (s.workdir.getD [] ++ [normalizeExt old_name])
      · rw [if_pos hc2]; exact ⟨rfl, rfl⟩
      · rw [if_neg hc2]
        by_cases hc3 : w.fsExists (s.workdir.getD [] ++ [normalizeExt new_name]) ∧ ¬ overwrite
        · rw [if_pos hc3]; exact ⟨rfl, rfl⟩
        · rw [if_neg hc3]
          by_cases hc4 : w.renameRaises
          · rw [if_pos hc4]; exact ⟨rfl, rfl⟩
          · rw [if_neg hc4]
            refine ⟨?_, rfl,
              fun fl hfl hmem => renameStateDoc_files_tracked _ _ _ _ fl hfl hmem,
              fun hfl => renameStateDoc_files_untracked _ _ _ _ hfl⟩
            by_cases hp : (load_state w s).primary_file = some (normalizeExt old_name) <;>
              simp [hp]

/-! ### Script execution handlers -/

/-- `str(Path)` rendering of an absolute component path. -/
def pathToString (p : List String) : String :=
  p.foldl (fun acc comp => acc ++ "/" ++ comp) ""

/-- Success payload of `run_R_script`. -/
structure RunScriptData where
  run : RunData
  filename : String
  save_rdata : Bool
deriving DecidableEq

/-- `handle_run_R_script` (main.py:664-726): gate, default to the primary
file, normalize, guard, check existence, build
`[--save|--no-save, script, extra args...]` and delegate to
`run_r_command`. Second component: the process cwd after the call. -/
def handle_run_R_script (w : World) (s : Session) (filename? : Option String)
    (args : Option (List String)) (timeout_sec : Nat) (save_rdata : Bool) :
    RResult RunScriptData × List String :=
  match ensure_workdir_set w s with
  | some e => (.err e, w.cwd0)
  | none =>
    let wd := s.workdir.getD []
    let filename := defaultFilename filename? s.primary_file
    let filename := normalizeExt filename
    let filepath := wd ++ [filename]
    if ¬ is_safe_path w.resolve s.workdir filepath then (.err "UNSAFE_PATH", w.cwd0)
    else if ¬ w.fsExists filepath then (.err "FILE_NOT_FOUND", w.cwd0)
    else
      let cmd_args := (if save_rdata then ["--save"] else ["--no-save"]) ++
        [pathToString filepath] ++ args.getD []
      match run_r_command w s cmd_args timeout_sec with
      | (.ok d, cwd) => (.ok ⟨d, filename, save_rdata⟩, cwd)
      | (.err c, cwd) => (.err c, cwd)

/-- Success payload of `run_R_expression`. -/
structure RunExprData where
  run : RunData
  expression : String
deriving DecidableEq

/-- `handle_run_R_expression` (main.py:728-743): gate, then
`run_r_command(["-e", expr, "--slave"])`. -/
def handle_run_R_expression (w : World) (s : Session) (expr : String) (timeout_sec : Nat) :
    RResult RunExprData × List String :=
  match ensure_workdir_set w s with
  | some e => (.err e, w.cwd0)
  | none =>
    match run_r_command w s ["-e", expr, "--slave"] timeout_sec with
    | (.ok d, cwd) => (.ok ⟨d, expr⟩, cwd)
    | (.err c, cwd) => (.err c, cwd)

/-! ### Listing and reading handlers -/

/-- Lexicographic `≤` on char lists (model of Python string comparison). -/
def charListLe : List Char → List Char → Bool
  | [], _ => true
  | _ :: _, [] => false
  | x :: xs, y :: ys => if x = y then charListLe xs ys else decide (x < y)

/-- Python `a <= b` on strings. -/
def strLe (a b : String) : Bool := charListLe a.data b.data

/-- Success payload of `list_exports`. -/
structure ListExportsData where
  files : List FileEntry
  count : Nat
  workdir : List String
deriving DecidableEq

/-- `handle_list_exports` (main.py:745-792): glob the session root, keep
regular files, sort by mtime/size/name (`reverse=descending`, except name
which uses `reverse=not descending`; a stable sort keeps enumeration order
on ties), truncate to `limit`. -/
def handle_list_exports (w : World) (s : Session) (glob : String) (sort_by : String)
    (descending : Bool) (limit : Nat) : RResult ListExportsData :=
  match ensure_workdir_set w s with
  | some e => .err e
  | none =>
    let files := (w.globFiles glob).filter (·.isFile)
    let files :=
      if sort_by = "mtime" then
        files.mergeSort (fun a b => if descending then decide (b.mtime ≤ a.mtime)
          else decide (a.mtime ≤ b.mtime))
      else if sort_by = "size" then
        files.mergeSort (fun a b => if descending then decide (b.size ≤ a.size)
          else decide (a.size ≤ b.size))
      else if sort_by = "name" then
        files.mergeSort (fun a b => if ¬ descending then strLe b.name a.name
          else strLe a.name b.name)
      else files
    let files := files.take limit
    .ok ⟨files, files.length, s.workdir.getD []⟩

/-- Success payload of `read_export` (text or base64-binary form). -/
inductive ReadData where
  | text (content : String) (filename : String) (size : Nat) (lines : Nat)
  | binary (content_base64 : String) (filename : String) (size : Nat)
deriving DecidableEq

/-- `handle_read_export` (main.py:794-882): guard, existence and
regular-file checks, whole-file-or-reject size check, then decoded text or
base64 bytes. -/
def handle_read_export (w : World) (s : Session) (name : String) (max_bytes : Nat)
    (as_text : Bool) (encoding : String) : RResult ReadData :=
  match ensure_workdir_set w s with
  | some e => .err e
  | none =>
    let wd := s.workdir.getD []
    let filepath := wd ++ [name]
    if ¬ is_safe_path w.resolve s.workdir filepath then .err "UNSAFE_PATH"
    else if ¬ w.fsExists filepath then .err "FILE_NOT_FOUND"
    else if ¬ w.isFile filepath then .err "NOT_A_FILE"
    else
      let file_size := w.fileSize filepath
      if file_size > max_bytes then .err "FILE_TOO_LARGE"
      else if as_text then
        if w.decodeFails then .err "DECODE_ERROR"
        else if w.readRaises then .err "READ_ERROR"
        else
          let content := w.readText filepath
          .ok (.text content name file_size (splitlinesCount content))
      else
        if w.readRaises then .err "READ_ERROR"
        else .ok (.binary w.bytesB64 name file_size)

/-! ### Tabular preview -/

/-- Success payload of `preview_table`. -/
structure PreviewData where
  header : List String
  rows : List (List String)
  total_rows : Nat
  displayed_rows : Nat
  delimiter : String
  truncated : Bool
deriving DecidableEq

/-- One iteration of the row loop (main.py:940-943): count every record,
retain it only while fewer than `max_rows` are held. -/
def previewStep (max_rows : Nat) (acc : Nat × List (List String)) (row : List String) :
    Nat × List (List String) :=
  (acc.1 + 1, if acc.2.length < max_rows then acc.2 ++ [row] else acc.2)

/-- Delimiter normalization of `handle_preview_table` (main.py:914-924):
`"\\t"` (two characters) and `"tab"` map to a tab; `"auto"` asks the
`csv.Sniffer` oracle (`none` = sniffing raised). -/
def delimMap (w : World) (delimiter : String) : Option String :=
  let delimiter := if delimiter = "\\t" ∨ delimiter = "tab" then "\t" else delimiter
  if delimiter = "auto" then w.sniffed else some delimiter

/-- `handle_preview_table` (main.py:884-964): guard and existence checks,
delimiter normalization/sniffing, first record as header (`EMPTY_FILE` when
absent or falsy), then stream the remaining records counting all of them
while retaining only the first `max_rows`; `truncated = total > max_rows`.
`w.parsed d` is the record stream the `csv.reader` yields for delimiter
`d` (`none` = opening/reading the file raised). -/
def handle_preview_table (w : World) (s : Session) (name : String) (delimiter : String)
    (max_rows : Nat) : RResult PreviewData :=
  match ensure_workdir_set w s with
  | some e => .err e
  | none =>
    let wd := s.workdir.getD []
    let filepath := wd ++ [name]
    if ¬ is_safe_path w.resolve s.workdir filepath then .err "UNSAFE_PATH"
    else if ¬ w.fsExists filepath then .err "FILE_NOT_FOUND"
    else
      match delimMap w delimiter with
      | none => .err "PREVIEW_ERROR"
      | some delim =>
        match w.parsed delim with
        | none => .err "PREVIEW_ERROR"
        | some [] => .err "EMPTY_FILE"
        | some (header :: dataRows) =>
          if header = [] then .err "EMPTY_FILE"
          else
            let acc := dataRows.foldl (previewStep max_rows) (0, [])
            .ok ⟨header, acc.2, acc.1, acc.2.length, delim, decide (acc.1 > max_rows)⟩

/-! ### Object inspection, interpreter lookup, listing R files, state -/

/-- The R program assembled by `handle_inspect_R_objects`
(main.py:1062-1120); `\x7b`/`\x7d` are literal braces. A `some []` objects
argument is falsy in Python and selects the inspect-all branch, like
`none`. -/
def buildInspectRCode (objects : Option (List String)) (str_max_level : Nat) : String :=
  let base := "\n        # Load saved workspace\n        load(\".RData\")\n        \n        # Get all objects if none specified\n        all_objects <- ls()\n        "
  let mid :=
    match objects with
    | some (o :: os) =>
      "\n            requested_objects <- c(" ++
        String.intercalate ", " ((o :: os).map (fun obj => "\"" ++ obj ++ "\"")) ++
        ")\n            missing <- setdiff(requested_objects, all_objects)\n            if (length(missing) > 0) \x7b\n                cat(\"Warning: Objects not found:\", paste(missing, collapse=\", \"), \"\\n\")\n            \x7d\n            objects_to_inspect <- intersect(requested_objects, all_objects)\n            "
    | _ => "\n            objects_to_inspect <- all_objects\n            "
  let tail := "\n        # Inspect each object\n        for (obj_name in objects_to_inspect) \x7b\n            cat(\"\\n=== Object:\", obj_name, \"===\\n\")\n            obj <- get(obj_name)\n            \n            # Basic info\n            cat(\"Class:\", paste(class(obj), collapse=\", \"), \"\\n\")\n            cat(\"Type:\", typeof(obj), \"\\n\")\n            \n            # Size info\n            if (is.data.frame(obj) || is.matrix(obj)) \x7b\n                cat(\"Dimensions:\", nrow(obj), \"x\", ncol(obj), \"\\n\")\n            \x7d else if (is.list(obj)) \x7b\n                cat(\"Length:\", length(obj), \"\\n\")\n            \x7d else if (is.vector(obj)) \x7b\n                cat(\"Length:\", length(obj), \"\\n\")\n            \x7d\n            \n            # Structure\n            cat(\"\\nStructure:\\n\")\n            str(obj, max.level=" ++ toString str_max_level ++ ")\n            \n            # Summary for data frames\n            if (is.data.frame(obj)) \x7b\n                cat(\"\\nSummary:\\n\")\n                print(summary(obj))\n            \x7d\n            \n            # First few elements for vectors\n            if (is.vector(obj) && !is.list(obj) && length(obj) > 0) \x7b\n                cat(\"\\nFirst elements:\\n\")\n                print(head(obj, 10))\n            \x7d\n        \x7d\n        "
  base ++ mid ++ tail

/-- Success payload of `inspect_R_objects`; `objects_inspected = none`
encodes the `"all"` marker the source returns for a falsy argument. -/
structure InspectData where
  run : RunData
  objects_inspected : Option (List String)
deriving DecidableEq

/-- `handle_inspect_R_objects` (main.py:1042-1129): gate, require
`<root>/.RData`, build the inspection program and run it with
`["-e", code, "--slave"]`. -/
def handle_inspect_R_objects (w : World) (s : Session) (objects : Option (List String))
    (str_max_level : Nat) (timeout_sec : Nat) : RResult InspectData × List String :=
  match ensure_workdir_set w s with
  | some e => (.err e, w.cwd0)
  | none =>
    let wd := s.workdir.getD []
    if ¬ w.fsExists (wd ++ [".RData"]) then (.err "NO_RDATA", w.cwd0)
    else
      let r_code := buildInspectRCode objects str_max_level
      match run_r_command w s ["-e", r_code, "--slave"] timeout_sec with
      | (.ok d, cwd) =>
        (.ok ⟨d, match objects with | some (o :: os) => some (o :: os) | _ => none⟩, cwd)
      | (.err c, cwd) => (.err c, cwd)

/-- Success payload of `which_R`. -/
structure WhichRData where
  executable : String
  alternatives : List String
deriving DecidableEq

/-- `handle_which_R` (main.py:1131-1164): collect `shutil.which("Rscript")`
then `shutil.which("R")`, preferring the first found; no session gate. -/
def handle_which_R (w : World) : RResult WhichRData :=
  let st : Option String × List String := (none, [])
  let st :=
    match w.rscriptPath with
    | some rscript => (some rscript, st.2 ++ [rscript])
    | none => st
  let st :=
    match w.rPath with
    | some r_exe => (if st.1 = none then some r_exe else st.1, st.2 ++ [r_exe])
    | none => st
  match st.1 with
  | some executable => .ok ⟨executable, st.2⟩
  | none => .err "R_NOT_FOUND"

/-- Success payload of `list_R_files`. -/
structure ListRFilesData where
  files : List String
  primary_file : String
deriving DecidableEq

/-- `handle_list_R_files` (main.py:1166-1196): glob `*.R` then `*.r`,
dedupe preserving enumeration order, sort lexicographically. -/
def handle_list_R_files (w : World) (s : Session) : RResult ListRFilesData :=
  match ensure_workdir_set w s with
  | some e => .err e
  | none =>
    let r_files := ["*.R", "*.r"].foldl
      (fun acc pattern =>
        (w.globFiles pattern).foldl
          (fun acc item =>
            if item.isFile ∧ item.name ∉ acc then acc ++ [item.name] else acc)
          acc)
      []
    let r_files := r_files.mergeSort (fun a b => strLe a b)
    .ok ⟨r_files, s.primary_file⟩

/-- Success payload of `get_state`: the loaded document's remaining keys
merged with the live runtime fields. -/
structure GetStateData where
  files : Option (List String)
  updated_at : Option Nat
  workdir : Option (List String)
  primary_file : String
  r_available : Bool
deriving DecidableEq

/-- `handle_get_state` (main.py:313-327): no session gate; load the
document (empty when no state file), overwrite its `workdir`,
`primary_file` and `r_available` keys with the live values, return
`ok:true` unconditionally. -/
def handle_get_state (w : World) (s : Session) : RResult GetStateData :=
  let state := load_state w s
  .ok ⟨state.files, state.updated_at, s.workdir, s.primary_file,
    (find_r_executable w).isSome⟩

/-! ### Style check -/

/-- The static `style_notes` list returned with every analysis. -/
def GGPLOT_STYLE_NOTES : List String :=
  ["Following publication-ready ggplot2 best practices:",
   "- Muted color palettes (Set2, viridis)",
   "- Clear typography (base_size ≥ 14pt)",
   "- Optimal export dimensions (5x4 inches)",
   "- High resolution (dpi=800)"]

/-- Success payload of `ggplot_style_check`. -/
structure StyleData where
  original_code : String
  optimized_code : String
  optimizations : List String
  style_notes : List String
  improvements_found : Nat
deriving DecidableEq

/-- `handle_ggplot_style_check` (main.py:966-1040): a pure text analysis.
The only substitutions performed on `optimized_code` are `"<-" → "="`
(when `"<-" in code`) and `theme_gray()`/`theme_grey()` →
`theme_minimal(base_size=14)` (when either occurs in `code`); every other
check only appends an advice message. The body cannot raise, so the
`except` arm returning `ANALYSIS_ERROR` is dead and the result is always
`ok:true` with `optimized_code = code` whenever the advice list stayed
empty (`\x27` is an apostrophe). -/
def handle_ggplot_style_check (code : String) : RResult StyleData :=
  let optimizations : List String := []
  let optimized_code := code
  let optimizations :=
    if hasSub code "<-" then
      optimizations ++ ["Replace \x27<-\x27 with \x27=\x27 for consistency"]
    else optimizations
  let optimized_code :=
    if hasSub code "<-" then strReplace optimized_code "<-" "=" else optimized_code
  let optimizations :=
    if hasSub code "theme_gray()" ∨ hasSub code "theme_grey()" then
      optimizations ++ ["Replace theme_gray() with theme_minimal(base_size=14)"]
    else if ¬ hasSub code "theme(" ∧ hasSub code "ggplot(" then
      optimizations ++ ["Add theme_minimal(base_size=14) for better aesthetics"]
    else optimizations
  let optimized_code :=
    if hasSub code "theme_gray()" ∨ hasSub code "theme_grey()" then
      strReplace (strReplace optimized_code "theme_gray()" "theme_minimal(base_size=14)")
        "theme_grey()" "theme_minimal(base_size=14)"
    else optimized_code
  let optimizations :=
    if hasSub code "ggsave(" then
      let optimizations :=
        if ¬ hasSub code "dpi=" then
          optimizations ++ ["Add dpi=800 to ggsave() for publication quality"]
        else optimizations
      if ¬ hasSub code "width=" ∨ ¬ hasSub code "height=" then
        optimizations ++ ["Specify width=5, height=4 in ggsave() for optimal dimensions"]
      else optimizations
    else if hasSub code "ggplot(" then
      optimizations ++ ["Add ggsave() with width=5, height=4, dpi=800"]
    else optimizations
  let optimizations :=
    if hasSub code "ggplot(" ∧ hasSub code "color=" ∧ ¬ hasSub code "scale_color" ∧
        ¬ hasSub code "scale_colour" then
      optimizations ++ ["Add scale_color_brewer(palette=\x27Set2\x27) for better categorical colors"]
    else optimizations
  let optimizations :=
    if hasSub code "ggplot(" ∧ hasSub code "fill=" ∧ ¬ hasSub code "scale_fill" then
      if hasSub (strToLower code) "continuous" ∨ hasSub (strToLower code) "numeric" then
        optimizations ++ ["Consider scale_fill_viridis_c() for continuous data"]
      else
        optimizations ++ ["Add scale_fill_brewer(palette=\x27Set2\x27) for categorical data"]
    else optimizations
  let optimizations :=
    if hasSub code "geom_point(" ∧ ¬ hasSub code "size=" then
      optimizations ++ ["Set size=2.5 in geom_point() for better visibility"]
    else optimizations
  let optimizations :=
    if hasSub code "geom_line(" then
      if ¬ hasSub code "linewidth=" ∧ ¬ hasSub code "size=" then
        optimizations ++ ["Set linewidth=0.8 in geom_line() for better visibility"]
      else optimizations
    else optimizations
  .ok { original_code := code
        optimized_code := if optimizations ≠ [] then optimized_code else code
        optimizations := optimizations
        style_notes := GGPLOT_STYLE_NOTES
        improvements_found := optimizations.length }

/-- **C10**: the style check is total and pure: every input yields
`ok:true` (never an error envelope), the returned `original_code` equals
the input exactly, and when none of the fixed substitution patterns
(`"<-"`, `theme_gray()`, `theme_grey()`) occur in the input, the returned
`optimized_code` is also the unchanged input (even when advice messages
were produced). -/
theorem ggplot_style_check_total_pure (code : String) :
    ∃ r, handle_ggplot_style_check code = .ok r ∧ r.original_code = code ∧
      (hasSub code "<-" = false → hasSub code "theme_gray()" = false →
        hasSub code "theme_grey()" = false → r.optimized_code = code) := by
  refine ⟨_, rfl, rfl, ?_⟩
  intro h1 h2 h3
  simp only [handle_ggplot_style_check, h1, h2, h3, Bool.false_eq_true, if_false,
    or_self, false_and, and_false, not_false_eq_true, ite_self]

/-- Witness for **C10**: a code string containing none of the substitution
patterns passes through unchanged. -/
theorem ggplot_style_check_witness :
    ∃ r, handle_ggplot_style_check "x = 1" = .ok r ∧ r.original_code = "x = 1" ∧
      (hasSub "x = 1" "<-" = false → hasSub "x = 1" "theme_gray()" = false →
        hasSub "x = 1" "theme_grey()" = false → r.optimized_code = "x = 1") :=
  ggplot_style_check_total_pure "x = 1"

/-- The row loop of `preview_table` counts every record and retains
exactly the first `max_rows - acc.length` beyond those already held. -/
lemma previewStep_foldl (max_rows : Nat) (l : List (List String)) :
    ∀ (t : Nat) (acc : List (List String)),
      l.foldl (previewStep max_rows) (t, acc) =
        (t + l.length, acc ++ l.take (max_rows - acc.length)) := by
  induction l with
  | nil => intro t acc; simp
  | cons r rs ih =>
    intro t acc
    simp only [List.foldl_cons, previewStep]
    by_cases h : acc.length < max_rows
    · rw [if_pos h, ih]
      have hn : max_rows - acc.length = (max_rows - (acc.length + 1)) + 1 := by omega
      rw [hn, List.take_succ_cons]
      simp [List.length_cons]
      omega
    · rw [if_neg h, ih]
      have h0 : max_rows - acc.length = 0 := by omega
      simp [h0]
      omega

/-- **C8**: for every delimited file with a (non-falsy) header record and
`N` data records, and every `max_rows = M`, the preview returns exactly the
first `min(M, N)` data rows, reports the true streamed total `N`, and
reports `truncated = (N > M)`. -/
theorem preview_table_streaming (w : World) (s : Session) (name delimiter : String)
    (max_rows : Nat) (delim : String) (header : List String)
    (dataRows : List (List String))
    (hgate : ensure_workdir_set w s = none)
    (hsafe : is_safe_path w.resolve s.workdir (s.workdir.getD [] ++ [name]) = true)
    (hexists : w.fsExists (s.workdir.getD [] ++ [name]) = true)
    (hdelim : delimMap w delimiter = some delim)
    (hparse : w.parsed delim = some (header :: dataRows))
    (hheader : header ≠ []) :
    handle_preview_table w s name delimiter max_rows =
      .ok ⟨header, dataRows.take max_rows, dataRows.length,
        min max_rows dataRows.length, delim, decide (dataRows.length > max_rows)⟩ ∧
    (dataRows.take max_rows).length = min max_rows dataRows.length := by
  constructor
  · unfold handle_preview_table
    rw [hgate, hdelim]
    simp [hsafe, hexists, hparse, previewStep_foldl, hheader, List.length_take]
  · exact List.length_take max_rows dataRows

/-- World of a preview over a three-data-row comma file in session `/w`. -/
def previewWorld : World :=
  { baseWorld with
    resolve := fun p => some p
    fsExists := fun _ => true
    parsed := fun d =>
      if d = "," then some [["h1"], ["r1"], ["r2"], ["r3"]] else none }

/-- Session rooted at `/w` for the preview witness. -/
def previewSession : Session :=
  { workdir := some ["w"], state_dir := some ["w", ".pilotr"],
    state_file := some ["w", ".pilotr", "state.json"], primary_file := "agent.R" }

/-- Witness for **C8**: previewing a file with 3 data rows at
`max_rows = 2` yields exactly 2 rows, `total_rows = 3`,
`truncated = true`. -/
theorem preview_table_streaming_witness :
    handle_preview_table previewWorld previewSession "t.csv" "," 2 =
      .ok ⟨["h1"], [["r1"], ["r2"]], 3, 2, ",", true⟩ := by
  rw [(preview_table_streaming previewWorld previewSession "t.csv" "," 2 ","
      ["h1"] [["r1"], ["r2"], ["r3"]] rfl rfl rfl rfl rfl (by decide)).1]
  decide

/-! ### Session gating across the catalog -/

/-- **C3** counterexample: `get_state` succeeds with `ok:true` even when no
working directory has ever been set — it performs no session check and
returns the merged live state (with a `None` root), not a `NO_WORKDIR`
error as the claim requires for every operation in the catalog. -/
theorem get_state_no_session_ok :
    initSession.workdir = none ∧
    handle_get_state baseWorld initSession = .ok ⟨none, none, none, "agent.R", false⟩ :=
  ⟨rfl, rfl⟩

/-- **C3** amended: every file/interpreter operation — create, rename,
select-primary, append, write, run-script, run-expression, list-exports,
read-export, preview, inspect, list-R-files — first requires an existing,
still-present session, re-checked on every call, failing with exactly the
gate's error (`NO_WORKDIR` when unset, `WORKDIR_MISSING` when the directory
vanished); but `get_state` always succeeds, `which_R` depends only on the
PATH lookup (it returns `ok` or `R_NOT_FOUND`, never a session error), and
`style_check` always succeeds. -/
theorem workdir_gate_amended (w : World) (s : Session) (e : String)
    (fn old_name new_name code expr name glob sort_by encoding delimiter : String)
    (fn? : Option String) (args : Option (List String)) (objs : Option (List String))
    (ov sc etn ush desc srd as_text : Bool)
    (limit max_bytes max_rows timeout_sec lvl : Nat)
    (hgate : ensure_workdir_set w s = some e) :
    ((handle_create_R_file w s fn ov sc).1 = .err e) ∧
    ((handle_rename_R_file w s old_name new_name ov).1 = .err e) ∧
    ((handle_set_primary_file w s fn).1 = .err e) ∧
    (handle_append_R_code w s code fn? etn = .err e) ∧
    ((handle_write_R_code w s code fn? ov ush).1 = .err e) ∧
    ((handle_run_R_script w s fn? args timeout_sec srd).1 = .err e) ∧
    ((handle_run_R_expression w s expr timeout_sec).1 = .err e) ∧
    (handle_list_exports w s glob sort_by desc limit = .err e) ∧
    (handle_read_export w s name max_bytes as_text encoding = .err e) ∧
    (handle_preview_table w s name delimiter max_rows = .err e) ∧
    ((handle_inspect_R_objects w s objs lvl timeout_sec).1 = .err e) ∧
    (handle_list_R_files w s = .err e) ∧
    (s.workdir = none → e = "NO_WORKDIR") ∧
    (∀ wd, s.workdir = some wd → ¬ w.fsExists wd → e = "WORKDIR_MISSING") ∧
    (∃ d, handle_get_state w s = .ok d) ∧
    ((∃ d, handle_which_R w = .ok d) ∨ handle_which_R w = .err "R_NOT_FOUND") ∧
    (∃ r, handle_ggplot_style_check code = .ok r) := by
  refine ⟨?_, ?_, ?_, ?_, ?_, ?_, ?_, ?_, ?_, ?_, ?_, ?_, ?_, ?_, ⟨_, rfl⟩, ?_, ⟨_, rfl⟩⟩
  · simp [handle_create_R_file, hgate]
  · simp [handle_rename_R_file, hgate]
  · simp [handle_set_primary_file, hgate]
  · simp [handle_append_R_code, hgate]
  · simp [handle_write_R_code, hgate]
  · simp [handle_run_R_script, hgate]
  · simp [handle_run_R_expression, hgate]
  · simp [handle_list_exports, hgate]
  · simp [handle_read_export, hgate]
  · simp [handle_preview_table, hgate]
  · simp [handle_inspect_R_objects, hgate]
  · simp [handle_list_R_files, hgate]
  · intro h
    simp [ensure_workdir_set, h] at hgate
    exact hgate.symm
  · intro wd hwd hex
    simp [ensure_workdir_set, hwd, hex] at hgate
    exact hgate.symm
  · unfold handle_which_R
    cases w.rscriptPath <;> cases w.rPath <;> simp

/-- Witness for **C3** amended: with no session, the gate reports
`NO_WORKDIR`, a gated operation (create) fails with it, and `get_state`
still succeeds. -/
theorem workdir_gate_amended_witness :
    ensure_workdir_set baseWorld initSession = some "NO_WORKDIR" ∧
    (handle_create_R_file baseWorld initSession "a" false true).1 = .err "NO_WORKDIR" ∧
    handle_get_state baseWorld initSession = .ok ⟨none, none, none, "agent.R", false⟩ := by
  have h := workdir_gate_amended baseWorld initSession "NO_WORKDIR" "a" "a" "b" "x" "1"
    "n" "*" "mtime" "utf-8" "," none none none false true true true true true true
    200 50000 50 60 1 rfl
  exact ⟨rfl, h.1, rfl⟩

end PilotR
